import Mathlib

/-!
Verification development for the `epaper-monitor` repository.

The Lean definitions below are a shallow embedding of the Python sources:

* `src/widgets/text.py`, `src/widgets/progressbar.py`, `src/widgets/icon.py`
* `src/display/epaper.py` / `src/display/screen.py` (their common compositor
  logic; the hardware backend is abstracted as a trace of backend operations)
* `src/service.py`
* `src/provider.py` (the older `SignalKProvider`) and
  `src/provider/signalk.py` (the newer `SignalKSubscription`-based provider)

Python exceptions are modelled by `Option`/`Except` (a `none`/`.error` result
is a raised exception).  PIL images are modelled as explicit boolean pixel
matrices; font rasterisation is an oracle stored with the widget, since the
glyph shapes are external to the repository.  Python floats are modelled as
exact fractions of integers (`Frac`): binary-rounding artefacts of IEEE-754
doubles (and the sign of negative zero in `%f` formatting) are not modelled,
and none of the theorems below depend on them.  Library string/number
functions are re-implemented structurally so that all definitions evaluate
inside the kernel.
-/

/-! ## Bitmaps (PIL mode "1" images) -/

/-- Bitmap: a 1-bit PIL image as a list of rows of boolean pixels. -/
abbrev Bitmap := List (List Bool)

/-- Blank image of width `w` and height `h` (`Image.new("1", (w, h), 0)`). -/
def mkBitmap (w h : Nat) : Bitmap :=
  List.replicate h (List.replicate w false)

/-- Map over one row with explicit x-coordinates starting at `x`. -/
def mapRow (f : Nat → Bool → Bool) : List Bool → Nat → List Bool
  | [], _ => []
  | p :: ps, x => f x p :: mapRow f ps (x + 1)

/-- Map over all pixels with explicit coordinates, rows starting at `y`. -/
def mapPix (f : Nat → Nat → Bool → Bool) : Bitmap → Nat → Bitmap
  | [], _ => []
  | row :: rows, y => mapRow (fun x p => f x y p) row 0 :: mapPix f rows (y + 1)

/-- Filled rectangle with inclusive corners, clipped at the image bounds
(PIL `ImageDraw.rectangle(((x0, y0), (x1, y1)), fill)`). -/
def fillRect (b : Bitmap) (x0 y0 x1 y1 : Int) (v : Bool) : Bitmap :=
  mapPix (fun x y p =>
    if x0 ≤ (x : Int) ∧ (x : Int) ≤ x1 ∧ y0 ≤ (y : Int) ∧ (y : Int) ≤ y1 then v else p) b 0

/-- Outlined rectangle: border pixels set, interior cleared, clipped
(PIL `rectangle(((0, 0), (x1, y1)), outline=1, fill=0)`). -/
def outlineRect (b : Bitmap) (x1 y1 : Int) : Bitmap :=
  mapPix (fun x y p =>
    if 0 ≤ (x : Int) ∧ (x : Int) ≤ x1 ∧ 0 ≤ (y : Int) ∧ (y : Int) ≤ y1 then
      decide ((x : Int) = 0 ∨ (x : Int) = x1 ∨ (y : Int) = 0 ∨ (y : Int) = y1)
    else p) b 0

/-- Pixel of `src` at integer coordinates, `none` when out of bounds. -/
def getPix (src : Bitmap) (x y : Int) : Option Bool :=
  if 0 ≤ x ∧ 0 ≤ y then
    match src.get? y.toNat with
    | none => none
    | some row => row.get? x.toNat
  else none

/-- Paste `src` into `dst` with its top-left corner at `(px, py)`, clipped at
the destination bounds (PIL `Image.paste`). -/
def pasteBitmap (dst src : Bitmap) (px py : Int) : Bitmap :=
  mapPix (fun x y p =>
    match getPix src ((x : Int) - px) ((y : Int) - py) with
    | some q => q
    | none => p) dst 0

/-- Dimension predicate: `b` has exactly `h` rows, each of width `w`. -/
def dimsOk (b : Bitmap) (w h : Nat) : Prop :=
  b.length = h ∧ ∀ r ∈ b, r.length = w

/-! ## Assoc-list dictionaries (Python `dict` with insertion order) -/

/-- Dict lookup: value of the first binding of `k` (Python `d[k]` / `d.get(k)`). -/
def lookupA {α : Type} : List (String × α) → String → Option α
  | [], _ => none
  | (k', v) :: rest, k => if k = k' then some v else lookupA rest k

/-- Dict store `d[k] = v`: replace the first binding of `k`, or append a new
binding (Python dicts keep insertion order). -/
def setA {α : Type} : List (String × α) → String → α → List (String × α)
  | [], k, v => [(k, v)]
  | (k', w) :: rest, k, v =>
    if k = k' then (k', v) :: rest else (k', w) :: setA rest k v

/-! ## JSON documents as Python objects -/

/-- Python value resulting from `json.loads`: `None`, `bool`, `int`, `float`
(carried as a decimal literal `m * 10^(-e)`), `str`, `list`, `dict`. -/
inductive JValue where
  | null : JValue
  | bool : Bool → JValue
  | intNum : Int → JValue
  | floatNum : Int → Nat → JValue
  | str : String → JValue
  | arr : List JValue → JValue
  | obj : List (String × JValue) → JValue

/-- Strip trailing decimal zeros of a float literal `m * 10^(-e)`. -/
def floatNorm : Int → Nat → Int × Nat
  | m, 0 => (m, 0)
  | m, e + 1 => if m % 10 = 0 then floatNorm (m / 10) e else (m, e + 1)

/-- Decimal digits of `a` with exactly `e` fractional digits, `e > 0`. -/
def decimalDigits (a : Nat) (e : Nat) : String :=
  let ip := a / 10 ^ e
  let fp := a % 10 ^ e
  let fs := toString fp
  toString ip ++ "." ++ String.mk (List.replicate (e - fs.length) '0') ++ fs

/-- Python `str()` of a float given as the decimal literal `m * 10^(-e)`
(scientific notation for very large/small magnitudes is not modelled; no
theorem below depends on a float's rendering). -/
def floatStr (m : Int) (e : Nat) : String :=
  let (m', e') := floatNorm m e
  if e' = 0 then toString m' ++ ".0"
  else (if m' < 0 then "-" else "") ++ decimalDigits m'.natAbs e'

mutual

/-- Python `repr()` of a JSON-shaped value (string escaping/quote choice is
simplified to single quotes). -/
def pyRepr : JValue → String
  | .null => "None"
  | .bool true => "True"
  | .bool false => "False"
  | .intNum n => toString n
  | .floatNum m e => floatStr m e
  | .str s => "'" ++ s ++ "'"
  | .arr xs => "[" ++ pyReprSeq xs ++ "]"
  | .obj fs => "\x7b" ++ pyReprEntries fs ++ "\x7d"

/-- Comma-separated `repr`s of list elements. -/
def pyReprSeq : List JValue → String
  | [] => ""
  | [x] => pyRepr x
  | x :: y :: xs => pyRepr x ++ ", " ++ pyReprSeq (y :: xs)

/-- Comma-separated `'key': repr` entries of a dict. -/
def pyReprEntries : List (String × JValue) → String
  | [] => ""
  | [(k, v)] => "'" ++ k ++ "': " ++ pyRepr v
  | (k, v) :: f :: fs => "'" ++ k ++ "': " ++ pyRepr v ++ ", " ++ pyReprEntries (f :: fs)

end

/-- Python `str()` of a JSON-shaped value: like `repr` but a top-level string
prints unquoted. -/
def pyStr : JValue → String
  | .str s => s
  | v => pyRepr v

mutual

/-- Structural size of a value, used to provision recursion fuel for the
equality test below. -/
def jsize : JValue → Nat
  | .null => 1
  | .bool _ => 1
  | .intNum _ => 1
  | .floatNum _ _ => 1
  | .str _ => 1
  | .arr xs => 1 + jsizeSeq xs
  | .obj fs => 1 + jsizeEntries fs

/-- Size of a list of values. -/
def jsizeSeq : List JValue → Nat
  | [] => 0
  | x :: xs => 1 + jsize x + jsizeSeq xs

/-- Size of a list of dict entries. -/
def jsizeEntries : List (String × JValue) → Nat
  | [] => 0
  | (_, v) :: fs => 1 + jsize v + jsizeEntries fs

end

mutual

/-- Fuelled Python `==` on JSON-shaped values: numeric types
(`bool`/`int`/`float`) compare by value across types, lists elementwise,
dicts by key set and per-key value, everything else only within its own
type.  The fuel only bounds the recursion depth; `pyEq` below supplies
enough for it never to run out. -/
def pyEqF : Nat → JValue → JValue → Bool
  | 0, _, _ => false
  | _ + 1, .null, .null => true
  | _ + 1, .bool a, .bool b => a == b
  | _ + 1, .bool a, .intNum n => (if a then (1 : Int) else 0) == n
  | _ + 1, .intNum n, .bool a => n == (if a then (1 : Int) else 0)
  | _ + 1, .bool a, .floatNum m e => (if a then (1 : Int) else 0) * 10 ^ e == m
  | _ + 1, .floatNum m e, .bool a => m == (if a then (1 : Int) else 0) * 10 ^ e
  | _ + 1, .intNum n, .intNum n' => n == n'
  | _ + 1, .intNum n, .floatNum m e => n * 10 ^ e == m
  | _ + 1, .floatNum m e, .intNum n => m == n * 10 ^ e
  | _ + 1, .floatNum m e, .floatNum m' e' => m * 10 ^ e' == m' * 10 ^ e
  | _ + 1, .str s, .str s' => s == s'
  | f + 1, .arr xs, .arr ys => pyEqSeqF f xs ys
  | f + 1, .obj fs, .obj gs => fs.length == gs.length && pyEqEntriesF f fs gs
  | _ + 1, _, _ => false

/-- Elementwise `==` of two lists. -/
def pyEqSeqF : Nat → List JValue → List JValue → Bool
  | _, [], [] => true
  | 0, _, _ => false
  | f + 1, x :: xs, y :: ys => pyEqF f x y && pyEqSeqF f xs ys
  | _ + 1, _, _ => false

/-- Every binding of the first dict is matched by the other dict. -/
def pyEqEntriesF : Nat → List (String × JValue) → List (String × JValue) → Bool
  | _, [], _ => true
  | 0, _, _ => false
  | f + 1, (k, v) :: rest, gs => pyEqFindF f k v gs && pyEqEntriesF f rest gs

/-- Key `k` is bound in `gs` (first binding) to a value `==` to `v`. -/
def pyEqFindF : Nat → String → JValue → List (String × JValue) → Bool
  | _, _, _, [] => false
  | 0, _, _, _ => false
  | f + 1, k, v, (k', w) :: gs => if k = k' then pyEqF f v w else pyEqFindF f k v gs

end

/-- Python `==` on JSON-shaped values, with fuel ample for both operands. -/
def pyEq (a b : JValue) : Bool :=
  pyEqF (jsize a + jsize b) a b

/-! ## Topic paths and document traversal -/

/-- Splitting loop for `topic.split("/")`, accumulating the current piece in
reverse. -/
def splitSlashAux : List Char → List Char → List String
  | [], acc => [String.mk acc.reverse]
  | c :: cs, acc =>
    if c = '/' then String.mk acc.reverse :: splitSlashAux cs []
    else splitSlashAux cs (c :: acc)

/-- Python `topic.split("/")` (one-element list for a separator-free string). -/
def splitSlash (topic : String) : List String :=
  splitSlashAux topic.toList []

/-- One step `value.get(element, "")`: a dict yields the bound value or the
default empty string; any non-dict raises `AttributeError` (`none`). -/
def dictGet (v : JValue) (key : String) : Option JValue :=
  match v with
  | .obj fs =>
    some (match lookupA fs key with
          | some w => w
          | none => .str "")
  | _ => none

/-- Path traversal loop `for element in path: value = value.get(element, "")`
from `provider.py` `eval_response` and `provider/signalk.py`
`SignalKSubscription.update`. -/
def extractPath (doc : JValue) : List String → Option JValue
  | [] => some doc
  | k :: ks =>
    match dictGet doc k with
    | none => none
    | some v => extractPath v ks


/-! ## Python floats as exact fractions -/

/-- Exact value of a Python float, as a fraction `num / den` with `den > 0`
by construction at every use site (no normalisation is performed). -/
structure Frac where
  num : Int
  den : Nat
deriving DecidableEq

/-- Embed an integer. -/
def Frac.ofInt (n : Int) : Frac := ⟨n, 1⟩

/-- Value-level comparison `a < b` (Python `<` on floats). -/
def Frac.blt (a b : Frac) : Bool :=
  a.num * (b.den : Int) < b.num * (a.den : Int)

/-- Value-level test for zero. -/
def Frac.isZero (a : Frac) : Bool := a.num == 0

/-- Difference `a - b`. -/
def Frac.sub (a b : Frac) : Frac :=
  ⟨a.num * (b.den : Int) - b.num * (a.den : Int), a.den * b.den⟩

/-- Product `a * b`. -/
def Frac.mul (a b : Frac) : Frac := ⟨a.num * b.num, a.den * b.den⟩

/-- Quotient `a / b`, keeping the denominator positive; only ever used after
the zero-divisor guard of the call site. -/
def Frac.div (a b : Frac) : Frac :=
  if b.num < 0 then ⟨-(a.num * (b.den : Int)), a.den * (-b.num).toNat⟩
  else ⟨a.num * (b.den : Int), a.den * b.num.toNat⟩

/-- Negation. -/
def Frac.neg (a : Frac) : Frac := ⟨-a.num, a.den⟩

/-- Scale by `10 ^ k`. -/
def Frac.mulPow10 (a : Frac) (k : Nat) : Frac := ⟨a.num * (10 : Int) ^ k, a.den⟩

/-- Scale by `10 ^ (-k)`. -/
def Frac.divPow10 (a : Frac) (k : Nat) : Frac := ⟨a.num, a.den * 10 ^ k⟩

/-- Floor of the fraction (denominator positive). -/
def Frac.floor (a : Frac) : Int := a.num / (a.den : Int)

/-- Python `max(a, b)` on floats. -/
def pyMax (a b : Frac) : Frac := if a.blt b then b else a

/-- Python `min(a, b)` on floats. -/
def pyMin (a b : Frac) : Frac := if b.blt a then b else a

/-- Python `int(x)` on a float: truncation toward zero. -/
def fracTrunc (a : Frac) : Int :=
  if a.blt (Frac.ofInt 0) then -(a.neg.floor) else a.floor

/-- Round to the nearest integer, ties to the even integer (the rounding of
Python `round` and of `%.Nf` formatting). -/
def roundHalfEven (a : Frac) : Int :=
  let f := a.floor
  let r := a.sub (Frac.ofInt f)
  if r.blt ⟨1, 2⟩ then f
  else if (⟨1, 2⟩ : Frac).blt r then f + 1
  else if f % 2 = 0 then f else f + 1

/-- Python `round(x, d)` for `d ≤ 0`: round to a multiple of `10 ^ (-d)`,
ties to even (`Text.format_text` only reaches `round` with `decimal <= 0`). -/
def pyRoundNeg (a : Frac) (d : Int) : Frac :=
  Frac.ofInt (roundHalfEven (a.divPow10 (-d).toNat) * (10 : Int) ^ (-d).toNat)

/-- Python `f"{x:.df}"` for `d > 0`: exactly `d` fractional digits, rounding
ties to even (the sign of a negative-zero result is not modelled). -/
def formatFixed (a : Frac) (d : Nat) : String :=
  let n := roundHalfEven (a.mulPow10 d)
  (if n < 0 then "-" else "") ++ decimalDigits n.natAbs d

/-! ## Parsing of CPython `float(s)` -/

/-- Whitespace accepted around a float literal. -/
def isSpaceC (c : Char) : Bool :=
  c = ' ' ∨ c = '\t' ∨ c = '\n' ∨ c = '\r' ∨ c = '\x0b' ∨ c = '\x0c'

/-- Strip surrounding whitespace. -/
def trimChars (cs : List Char) : List Char :=
  ((cs.dropWhile isSpaceC).reverse.dropWhile isSpaceC).reverse

/-- Digits of a mantissa folded into a natural number. -/
def natOfDigits (ds : List Char) : Nat :=
  ds.foldl (fun a c => a * 10 + (c.toNat - '0'.toNat)) 0

/-- Optional leading sign; returns `(isNegative, rest)`. -/
def parseSign : List Char → Bool × List Char
  | '+' :: r => (false, r)
  | '-' :: r => (true, r)
  | cs => (false, cs)

/-- Mantissa `digits`, `digits.digits`, `digits.` or `.digits`; at least one
digit is required. -/
def parseMant (cs : List Char) : Option (Frac × List Char) :=
  let (ip, r1) := cs.span Char.isDigit
  match r1 with
  | '.' :: r2 =>
    let (fp, r3) := r2.span Char.isDigit
    if ip.isEmpty ∧ fp.isEmpty then none
    else some (⟨(natOfDigits ip * 10 ^ fp.length + natOfDigits fp : Nat), 10 ^ fp.length⟩, r3)
  | _ => if ip.isEmpty then none else some (Frac.ofInt (natOfDigits ip), r1)

/-- Optional exponent `e`/`E` with optional sign and mandatory digits. -/
def parseExp : List Char → Option (Int × List Char)
  | [] => some (0, [])
  | c :: r =>
    if c = 'e' ∨ c = 'E' then
      match parseSign r with
      | (neg, r1) =>
        let (ds, r2) := r1.span Char.isDigit
        if ds.isEmpty then none
        else some ((if neg then -(natOfDigits ds : Int) else (natOfDigits ds : Int)), r2)
    else some (0, c :: r)

/-- Scale `a` by `10 ^ ex` for a signed exponent. -/
def scalePow10 (a : Frac) (ex : Int) : Frac :=
  if 0 ≤ ex then a.mulPow10 ex.toNat else a.divPow10 (-ex).toNat

/-- CPython `float(s)`: surrounding whitespace is stripped, then an optional
sign, a decimal mantissa and an optional exponent must consume the whole
string; anything else raises `ValueError` (`none`).  (`inf`/`nan`, hex floats
and underscore digit separators are not modelled; the result is the exact
decimal value rather than its IEEE-754 rounding.) -/
def pyFloat (s : String) : Option Frac :=
  let cs := trimChars s.toList
  match parseSign cs with
  | (neg, cs1) =>
    match parseMant cs1 with
    | none => none
    | some (m, cs2) =>
      match parseExp cs2 with
      | none => none
      | some (ex, cs3) =>
        if cs3.isEmpty then
          some (if neg then (scalePow10 m ex).neg else scalePow10 m ex)
        else none

/-- Sanity checks of the float model against CPython behaviour:
`float("12.34")`, `float("abc")` (ValueError), `float("")` (ValueError),
`float(" -1.5e1 ")`. -/
theorem pyFloat_model_sanity :
    (pyFloat "12.34").map (fun a => (a.num, a.den)) = some (1234, 100) ∧
    pyFloat "abc" = none ∧ pyFloat "" = none ∧
    pyFloat " -1.5e1 " = some ⟨-150, 10⟩ := by decide

/-- Sanity checks of rounding and formatting against CPython:
`f"{12.34:.1f}" == "12.3"`, `int(round(0.5, 0)) == 0` (ties to even),
`int(round(1.5, 0)) == 2`, `f"{0.125:.2f}" == "0.12"`. -/
theorem formatting_model_sanity :
    formatFixed ⟨1234, 100⟩ 1 = "12.3" ∧
    fracTrunc (pyRoundNeg ⟨1, 2⟩ 0) = 0 ∧
    fracTrunc (pyRoundNeg ⟨15, 10⟩ 0) = 2 ∧
    formatFixed ⟨125, 1000⟩ 2 = "0.12" := by decide

/-! ## Text widget (`src/widgets/text.py`) -/

/-- Horizontal alignment enum `HAlign`. -/
inductive HAlign where
  | left : HAlign
  | center : HAlign
  | right : HAlign
deriving DecidableEq

/-- Font oracle: the PIL font object held by a `Text` widget.  `descent` is
the second component of `font.getmetrics()`; `maskBbox` is
`font.getmask(value).getbbox()` (`none` models a `None` bounding box, whose
subscription raises `TypeError`); `renderOn value w h` is the fresh `(w, h)`
canvas after `ImageDraw.text((0, 0), value, font=font, fill=1)`. -/
structure FontO where
  descent : Nat
  maskBbox : String → Option (Nat × Nat × Nat × Nat)
  renderOn : String → Nat → Nat → Bitmap

/-- State of a `Text` widget.  The constructor takes exactly the fields below
(`position`, `size`, `font`, `halign`, `is_numeric`, `decimal`, `text`,
`suffix`); there is no `scale` parameter. -/
structure TextW where
  position : Int × Int
  size : Nat × Nat
  font : FontO
  halign : HAlign
  text : String
  is_numeric : Bool
  decimal : Int
  suffix : String
  image : Bitmap

/-- Fresh widget image created by `Text.__init__`:
`Image.new("1", self.size, 0)`. -/
def textInitImage (size : Nat × Nat) : Bitmap := mkBitmap size.1 size.2

/-- Body of `Text.format_text`: empty input is replaced by `self.text`
(non-numeric) or `"0"` (numeric); a numeric widget then formats
`float(value)` with `decimal` fractional digits when `decimal > 0`, else as
`int(round(float(value), decimal))`; a failing `float()` raises `ValueError`
(`none`); a non-empty suffix is joined with one space. -/
def TextW.format_text (w : TextW) (value : String) : Option String :=
  let value := if value = "" then (if w.is_numeric then "0" else w.text) else value
  let numPart : Option String :=
    if w.is_numeric then
      match pyFloat value with
      | none => none
      | some q =>
        if w.decimal > 0 then some (formatFixed q w.decimal.toNat)
        else some (toString (fracTrunc (pyRoundNeg q w.decimal)))
    else some value
  match numPart with
  | none => none
  | some v => some (if w.suffix = "" then v else v ++ " " ++ w.suffix)

/-- Body of `Text.get_size`: the mask bounding box of the formatted value,
giving `(bbox[2], bbox[3] + descent)`; a `None` bounding box raises
`TypeError` (`none`). -/
def TextW.get_size (w : TextW) (value : String) : Option (Nat × Nat) :=
  match w.font.maskBbox value with
  | none => none
  | some (_, _, x2, y2) => some (x2, y2 + w.font.descent)

/-- Body of `Text.align_text` (Python `//` is floor division). -/
def TextW.align_text (w : TextW) (width : Nat) : Int :=
  match w.halign with
  | .left => 0
  | .center => Int.fdiv ((w.size.1 : Int) - (width : Int)) 2
  | .right => (w.size.1 : Int) - (width : Int)

/-- Body of `Text.update`: the widget area is first cleared with
`draw.rectangle(((0, 0), self.size), fill=0)`; then the value is formatted
(a raised `ValueError` propagates, leaving the cleared image), measured
(a `None` bbox raises `TypeError`), dropped if either dimension is zero
(early return with the cleared image), and otherwise rendered on a fresh
canvas that is pasted at the aligned x offset. -/
def TextW.update (w : TextW) (value : String) : Except TextW TextW :=
  let img1 := fillRect w.image 0 0 (w.size.1 : Int) (w.size.2 : Int) false
  match w.format_text value with
  | none => .error { w with image := img1 }
  | some fvalue =>
    match w.get_size fvalue with
    | none => .error { w with image := img1 }
    | some (width, height) =>
      if width = 0 ∨ height = 0 then .ok { w with image := img1 }
      else
        let newImage := w.font.renderOn fvalue width height
        let x := w.align_text width
        .ok { w with image := pasteBitmap img1 newImage x 0 }

/-- Image of an `Except`-wrapped text widget result, `none` on a raised
exception. -/
def updImage : Except TextW TextW → Option Bitmap
  | .ok w => some w.image
  | .error _ => none

/-- The widget's bitmap right after the leading
`draw.rectangle(((0, 0), self.size), fill=0)` of `Text.update`. -/
def clearedImage (w : TextW) : Bitmap :=
  fillRect w.image 0 0 (w.size.1 : Int) (w.size.2 : Int) false

/-! ## ProgressBar widget (`src/widgets/progressbar.py`) -/

/-- State of a `ProgressBar` widget (`min`/`max` are the clamp bounds). -/
structure ProgressBar where
  position : Nat × Nat
  size : Nat × Nat
  min : Frac
  max : Frac
  image : Bitmap

/-- Body of `ProgressBar.update`: parse the value (`ValueError` falls back to
`min`), clamp into `[min, max]`, then compute the fill width
`int((val - min) / (max - min) * size[0])` — a zero range raises
`ZeroDivisionError` (`none`) — and draw the outlined frame plus the filled
rectangle from `(0, 0)` to `(width, size[1] - 1)`. -/
def ProgressBar.update (p : ProgressBar) (value : String) : Option ProgressBar :=
  let val := match pyFloat value with
             | some v => v
             | none => p.min
  let val := pyMin (pyMax val p.min) p.max
  if (p.max.sub p.min).isZero then none
  else
    let width := fracTrunc (((val.sub p.min).div (p.max.sub p.min)).mul
      (Frac.ofInt (p.size.1 : Int)))
    let img := outlineRect p.image ((p.size.1 : Int) - 1) ((p.size.2 : Int) - 1)
    let img := fillRect img 0 0 width ((p.size.2 : Int) - 1) true
    some { p with image := img }

/-- Body of `ProgressBar.__init__` for integer bounds (the Python defaults
are the ints `0` and `100`): the initial image is
`Image.new("1", self.position, 0)` — note the source passes `position`, not
`size` — and the constructor ends with `self.update(f"{min}")`, whose
`ZeroDivisionError` propagates out of construction. -/
def ProgressBar.init (position size : Nat × Nat) (mn mx : Int) : Option ProgressBar :=
  let p0 : ProgressBar :=
    { position := position, size := size, min := Frac.ofInt mn, max := Frac.ofInt mx,
      image := mkBitmap position.1 position.2 }
  p0.update (toString mn)

/-! ## Icon widget and the widget capability (`src/widgets/icon.py`,
`src/widgets/widget.py`) -/

/-- A widget registered on a display: one of the three concrete variants. -/
inductive WidgetV where
  | text : TextW → WidgetV
  | icon : Int × Int → Bitmap → WidgetV
  | bar : ProgressBar → WidgetV

/-- Dispatch of `widget.update(value)`; `Icon.update` is a no-op, the other
variants may raise (`none`). -/
def WidgetV.update : WidgetV → String → Option WidgetV
  | .text t, value =>
    match t.update value with
    | .ok t' => some (.text t')
    | .error _ => none
  | .icon pos img, _ => some (.icon pos img)
  | .bar p, value =>
    match p.update value with
    | some p' => some (.bar p')
    | none => none

/-- Dispatch of `widget.get_image()` (every variant returns its image). -/
def WidgetV.get_image : WidgetV → Option Bitmap
  | .text t => some t.image
  | .icon _ img => some img
  | .bar p => some p.image

/-- Dispatch of `widget.get_position()`. -/
def WidgetV.get_position : WidgetV → Int × Int
  | .text t => t.position
  | .icon pos _ => pos
  | .bar p => ((p.position.1 : Int), (p.position.2 : Int))

/-! ## Display compositor (`src/display/epaper.py` / `src/display/screen.py`) -/

/-- Backend operation issued by the compositor: a partial repaint
(`epd.display_Partial`), a full repaint (`epd.display` / `image.show()`), or
putting the panel to sleep (`epd.sleep`). -/
inductive BackendOp where
  | paintPartial : BackendOp
  | paintFull : BackendOp
  | sleepOp : BackendOp
deriving DecidableEq

/-- Display state: the topic-to-widgets registry (a dict of lists) and the
composed master buffer. -/
structure DisplayD where
  widgets : List (String × List WidgetV)
  image : Bitmap

/-- Body of `Display.add_widget` for a non-empty id: appends to the id's
list, creating it on first use (the random anonymous id generated for an
empty id is outside this model). -/
def DisplayD.add_widget (d : DisplayD) (id : String) (w : WidgetV) : DisplayD :=
  match lookupA d.widgets id with
  | none => { d with widgets := d.widgets ++ [(id, [w])] }
  | some ws => { d with widgets := setA d.widgets id (ws ++ [w]) }

/-- Loop body of `update_widget`: update each widget under the id in order
(a raised widget exception propagates), pasting each widget's image into the
master buffer at its position. -/
def updateWidgetsLoop : List WidgetV → String → Bitmap → Option (List WidgetV × Bitmap)
  | [], _, img => some ([], img)
  | w :: ws, value, img =>
    match w.update value with
    | none => none
    | some w' =>
      let img' := match w'.get_image with
                  | some wi => pasteBitmap img wi w'.get_position.1 w'.get_position.2
                  | none => img
      match updateWidgetsLoop ws value img' with
      | none => none
      | some (ws', img'') => some (w' :: ws', img'')

/-- Body of `update_widget(id, value, refresh)`: `self.widgets[id]` raises
`KeyError` for an unregistered id (`.error`); otherwise every widget under
the id is updated and pasted, and when `refresh` is true the backend does a
partial repaint followed by sleep. -/
def DisplayD.update_widget (d : DisplayD) (id value : String) (refresh : Bool) :
    Except Unit (DisplayD × List BackendOp) :=
  match lookupA d.widgets id with
  | none => .error ()
  | some ws =>
    match updateWidgetsLoop ws value d.image with
    | none => .error ()
    | some (ws', img') =>
      .ok ({ widgets := setA d.widgets id ws', image := img' },
           if refresh then [BackendOp.paintPartial, BackendOp.sleepOp] else [])

/-- Key iteration of `update_all_widgets`: call `update_widget(key,
refresh=False)` — so with the default `value=""` — for every key. -/
def updateAllLoop (d : DisplayD) : List String → Except Unit DisplayD
  | [] => .ok d
  | k :: ks =>
    match d.update_widget k "" false with
    | .error _ => .error ()
    | .ok (d', _) => updateAllLoop d' ks

/-- Body of `update_all_widgets`: an empty registry returns immediately with
no backend operation; otherwise every registered key is updated with the
default empty value and one full repaint plus sleep is issued. -/
def DisplayD.update_all_widgets (d : DisplayD) : Except Unit (DisplayD × List BackendOp) :=
  if d.widgets.isEmpty then .ok (d, [])
  else
    match updateAllLoop d (d.widgets.map (fun kv => kv.1)) with
    | .error _ => .error ()
    | .ok d' => .ok (d', [BackendOp.paintFull, BackendOp.sleepOp])

/-- Master buffer of an `Except`-wrapped display result, `none` on a raised
exception. -/
def dispImage : Except Unit (DisplayD × List BackendOp) → Option Bitmap
  | .ok (d, _) => some d.image
  | .error _ => none

/-! ## Service (`src/service.py`) -/

/-- A display call issued by `Service.callback`. -/
inductive DisplayOp where
  | updateWidget : String → String → Bool → DisplayOp
  | refreshOp : DisplayOp
deriving DecidableEq

/-- Body of `Service.callback(data)`: an empty batch returns immediately;
otherwise `display.update_widget(topic, value, False)` is called for every
delta in order and then exactly one `display.refresh()`. -/
def serviceCallback (data : List (String × String)) : List DisplayOp :=
  if data.isEmpty then []
  else
    data.foldl (fun acc sub => acc ++ [DisplayOp.updateWidget sub.1 sub.2 false]) []
      ++ [DisplayOp.refreshOp]

/-! ## Poll provider, newer variant (`src/provider/signalk.py`) -/

/-- State of a `SignalKSubscription`: the topic, its pre-split path, whether
a delta callback is registered, and the last-observed string representation
`self.value` (initialised to `""`). -/
structure SignalKSubscription where
  topic : String
  path : List String
  hasCallback : Bool
  value : String

/-- Body of `SignalKSubscription.__init__`. -/
def SignalKSubscription.init (topic : String) (hasCallback : Bool) : SignalKSubscription :=
  { topic := topic, path := splitSlash topic, hasCallback := hasCallback, value := "" }

/-- Body of `SignalKSubscription.update(data)`: extract the value at the
path (an `AttributeError` from `.get` on a non-dict propagates, `none`),
take `str(val)`, and when it differs from the stored representation, store
it and invoke the callback with `(topic, str_val)` if one is registered.
The result is the new state paired with the emitted delta, if any. -/
def SignalKSubscription.update (s : SignalKSubscription) (data : JValue) :
    Option (SignalKSubscription × Option (String × String)) :=
  match extractPath data s.path with
  | none => none
  | some val =>
    let str_val := pyStr val
    if s.value ≠ str_val then
      let s' := { s with value := str_val }
      if ¬s.hasCallback then some (s', none)
      else some (s', some (s.topic, str_val))
    else some (s, none)

/-- Loop of the newer `SignalKProvider.eval_response`: update every
subscription in order against the parsed document, collecting the emitted
deltas (an exception in any update propagates). -/
def evalResponseSK : List SignalKSubscription → JValue →
    Option (List SignalKSubscription × List (String × String))
  | [], _ => some ([], [])
  | s :: ss, doc =>
    match s.update doc with
    | none => none
    | some (s', e) =>
      match evalResponseSK ss doc with
      | none => none
      | some (ss', es) =>
        some (s' :: ss', (match e with | some p => [p] | none => []) ++ es)

/-- Environment outcome of one poll cycle's HTTP fetch: either
`requests.get` raised a `RequestException` (timeout and friends), or a
response arrived with a status code and a body whose JSON parse is `parsed`
(`none` for a malformed body). -/
inductive FetchResult where
  | requestError : FetchResult
  | response : Nat → Option JValue → FetchResult

/-- One iteration of the newer `SignalKProvider.run` loop: the `try` block
performs the fetch, `raise_for_status()` (an `HTTPError` — a
`RequestException` — for statuses 400–599) and `eval_response`; only
`requests.exceptions.RequestException` is caught and logged.  A
`json.JSONDecodeError` from a malformed body, or an `AttributeError` from
path traversal, is not a `RequestException` and escapes the loop
(`.error`).  A completed iteration (`.ok`) proceeds to `sleep`. -/
def runCycleSK (subs : List SignalKSubscription) (f : FetchResult) :
    Except Unit (List SignalKSubscription × List (String × String)) :=
  match f with
  | .requestError => .ok (subs, [])
  | .response status parsed =>
    if 400 ≤ status ∧ status < 600 then .ok (subs, [])
    else
      match parsed with
      | none => .error ()
      | some doc =>
        match evalResponseSK subs doc with
        | none => .error ()
        | some (subs', es) => .ok (subs', es)

/-- Run one subscription through a list of consecutive poll documents,
counting how many times the delta callback fires. -/
def runUpdates (s : SignalKSubscription) : List JValue →
    Option (SignalKSubscription × Nat)
  | [] => some (s, 0)
  | d :: ds =>
    match s.update d with
    | none => none
    | some (s', e) =>
      match runUpdates s' ds with
      | none => none
      | some (s'', n) => some (s'', (if e.isSome then 1 else 0) + n)

/-! ## Poll provider, older variant (`src/provider.py`) -/

/-- State of the older `SignalKProvider`: the subscribed topics, the
`self.data` dict of last-emitted raw values, and whether `on_data` is
registered. -/
structure SKProviderPy where
  topics : List String
  data : List (String × JValue)
  hasCallback : Bool

/-- Dict built by the older `SignalKProvider.__init__`:
`self.data[topic] = 0` for every subscription (the int `0`). -/
def initDataPy (topics : List String) : List (String × JValue) :=
  topics.map (fun t => (t, JValue.intNum 0))

/-- Initial state of the older `SignalKProvider` with a registered callback. -/
def initProviderPy (topics : List String) : SKProviderPy :=
  { topics := topics, data := initDataPy topics, hasCallback := true }

/-- Topic loop of the older `SignalKProvider.eval_response`: for each topic,
extract the value at the slash path (an `AttributeError` propagates), read
`self.data[topic]` (a `KeyError` propagates), and when the raw values
compare unequal under Python `==`, append `(topic, value)` to the result and
store the value. -/
def evalGo (resp : JValue) : List String → List (String × JValue) →
    List (String × JValue) → Option (List (String × JValue) × List (String × JValue))
  | [], acc, store => some (acc, store)
  | t :: ts, acc, store =>
    match extractPath resp (splitSlash t) with
    | none => none
    | some v =>
      match lookupA store t with
      | none => none
      | some old =>
        if pyEq old v then evalGo resp ts acc store
        else evalGo resp ts (acc ++ [(t, v)]) (setA store t v)

/-- Body of the older `SignalKProvider.eval_response`: run the topic loop
over `self.topics`, returning the emitted deltas and the updated provider
state. -/
def evalResponsePy (st : SKProviderPy) (resp : JValue) :
    Option (List (String × JValue) × SKProviderPy) :=
  match evalGo resp st.topics [] st.data with
  | none => none
  | some (acc, store) => some (acc, { st with data := store })

/-- One iteration of the older `SignalKProvider.run` loop: there is no
`try`/`except` at all, so a fetch failure or a malformed JSON body raises
out of the loop (`.error`); a non-200 status is skipped silently; on a 200
response the parsed object is evaluated and `on_data(data)` is invoked with
the (possibly empty) delta list whenever a callback is registered. -/
def runCyclePy (st : SKProviderPy) (f : FetchResult) :
    Except Unit (SKProviderPy × Option (List (String × JValue))) :=
  match f with
  | .requestError => .error ()
  | .response status parsed =>
    if status = 200 then
      match parsed with
      | none => .error ()
      | some obj =>
        match evalResponsePy st obj with
        | none => .error ()
        | some (data, st') =>
          .ok (st', if st.hasCallback then some data else none)
    else .ok (st, none)

/-! ## Helper lemmas -/

/-- Folding update-appends equals mapping (loop of `Service.callback`). -/
theorem foldl_updates_eq_map (data : List (String × String)) (acc : List DisplayOp) :
    data.foldl (fun acc sub => acc ++ [DisplayOp.updateWidget sub.1 sub.2 false]) acc =
      acc ++ data.map (fun p => DisplayOp.updateWidget p.1 p.2 false) := by
  induction data generalizing acc with
  | nil => simp
  | cons p ps ih => simp [List.foldl, ih]

/-- A row map whose function is constantly `false` on the row's index range
yields an all-clear row. -/
theorem mapRow_const (g : Nat → Bool → Bool) (row : List Bool) (x0 : Nat)
    (hg : ∀ x p, x0 ≤ x → x < x0 + row.length → g x p = false) :
    mapRow g row x0 = List.replicate row.length false := by
  induction row generalizing x0 with
  | nil => rfl
  | cons p ps ih =>
    simp only [List.length_cons] at hg
    simp only [mapRow, List.length_cons, List.replicate_succ]
    rw [hg x0 p (Nat.le_refl _) (by omega),
      ih (x0 + 1) (fun x q hx hx' => hg x q (by omega) (by omega))]

/-- A pixel map whose function is constantly `false` inside the bitmap's
index ranges clears the bitmap. -/
theorem mapPix_clear (f : Nat → Nat → Bool → Bool) (rows : Bitmap) (y0 w : Nat)
    (hrows : ∀ r ∈ rows, r.length = w)
    (hf : ∀ x y p, x < w → y0 ≤ y → y < y0 + rows.length → f x y p = false) :
    mapPix f rows y0 = List.replicate rows.length (List.replicate w false) := by
  induction rows generalizing y0 with
  | nil => rfl
  | cons row rs ih =>
    simp only [List.length_cons] at hf
    simp only [mapPix, List.length_cons, List.replicate_succ]
    have hlen : row.length = w := hrows row (List.mem_cons_self _ _)
    have hhead : mapRow (fun x p => f x y0 p) row 0 = List.replicate w false := by
      rw [← hlen]
      exact mapRow_const _ row 0
        (fun x p _ hx => hf x y0 p (by omega) (Nat.le_refl _) (by omega))
    rw [hhead, ih (y0 + 1) (fun r hr => hrows r (List.mem_cons_of_mem _ hr))
      (fun x y p hx hy hy' => hf x y p hx (by omega) (by omega))]

/-- Clearing the full widget area of a well-dimensioned bitmap produces the
blank bitmap, independently of the previous pixels (the
`draw.rectangle(((0, 0), self.size), fill=0)` call of `Text.update`). -/
theorem fillRect_clear (b : Bitmap) (w h : Nat) (hb : dimsOk b w h) :
    fillRect b 0 0 (w : Int) (h : Int) false = mkBitmap w h := by
  obtain ⟨hlen, hrows⟩ := hb
  unfold fillRect mkBitmap
  rw [← hlen]
  exact mapPix_clear _ b 0 w hrows
    (fun x y p hx hy hy' => if_pos (by omega))

/-- Lookup in the older provider's freshly initialised `self.data` dict. -/
theorem lookupA_initDataPy (ts : List String) (t : String) (ht : t ∈ ts) :
    lookupA (initDataPy ts) t = some (JValue.intNum 0) := by
  induction ts with
  | nil => cases ht
  | cons t' ts ih =>
    simp only [initDataPy, List.map, lookupA]
    by_cases h : t = t'
    · simp [h]
    · have : t ∈ ts := by
        cases ht with
        | head => exact absurd rfl h
        | tail _ h' => exact h'
      simpa [h, initDataPy] using ih this

/-! ## Claim C3 -/

/-- Font oracle placeholder for formatting-only statements (never consulted
by `format_text`). -/
def trivialFont : FontO := ⟨0, fun _ => none, fun _ _ _ => []⟩

/-- Battery state-of-charge text widget as `epaper_demo.define_widgets`
wires it: `halign=right, suffix="%", is_numeric=True, decimal=0` — the demo
also passes `scale=100`, but `Text.__init__` has no such parameter (the call
raises `TypeError`), so the model has no scale field to populate. -/
def socWidget : TextW :=
  { position := (46, 14), size := (80, 24), font := trivialFont, halign := .right,
    text := "", is_numeric := true, decimal := 0, suffix := "%",
    image := textInitImage (80, 24) }

/-- C3: the code evaluated at the failing input.  The claim requires the
formatted output to equal `v * scale` (here `0.5 * 100` rendered as
`"50 %"`), but `Text` has no `scale` configuration and never multiplies:
the state-of-charge widget renders `"0.5"` as `"0 %"`. -/
theorem C3_format_has_no_scale :
    socWidget.format_text "0.5" = some "0 %" ∧ ("0 %" : String) ≠ "50 %" :=
  ⟨by decide, by decide⟩

/-! ## Claim C6 -/

/-- ProgressBar.update with a zero range always raises `ZeroDivisionError`:
the fill-width expression divides by `max - min` before anything is drawn. -/
theorem progress_update_zero_range (p : ProgressBar) (value : String)
    (h : (p.max.sub p.min).isZero = true) : p.update value = none := by
  simp [ProgressBar.update, h]

/-- C6 (amended): a `max == min` range is not guarded — every `update`
raises `ZeroDivisionError` (`none`), including the `update(f"{min}")` issued
by the constructor, so construction itself raises instead of rendering an
always-empty bar. -/
theorem C6_zero_range_raises :
    (∀ (p : ProgressBar) (value : String), (p.max.sub p.min).isZero = true →
      p.update value = none) ∧
    (∀ (position size : Nat × Nat) (mn : Int),
      ProgressBar.init position size mn mn = none) := by
  refine ⟨fun p v h => progress_update_zero_range p v h, fun pos sz mn => ?_⟩
  unfold ProgressBar.init
  exact progress_update_zero_range _ _ (by simp [Frac.sub, Frac.isZero, Frac.ofInt])

/-- C6 counterexample: the claim asserts that construction with `max == min`
is guarded and yields an always-empty bar; in fact the constructor raises
(`none`) for the degenerate range `0, 0`. -/
theorem C6_init_zero_range_counterexample :
    ProgressBar.init (10, 10) (50, 8) 0 0 = none := by rfl

/-- C6 witness: the amended theorem applied at a concrete degenerate bar. -/
theorem C6_zero_range_witness :
    ProgressBar.update
      { position := (10, 10), size := (50, 8), min := Frac.ofInt 3,
        max := Frac.ofInt 3, image := mkBitmap 10 10 } "7" = none ∧
    ProgressBar.init (5, 5) (20, 4) 2 2 = none :=
  ⟨C6_zero_range_raises.1 _ "7" (by decide), C6_zero_range_raises.2 (5, 5) (20, 4) 2⟩

/-! ## Claim C8 -/

/-- C8: `Service.callback` on a non-empty batch issues
`update_widget(topic, value, False)` once per delta, in batch order, and
then exactly one `refresh()`; an empty batch issues nothing. -/
theorem C8_service_batch (data : List (String × String)) :
    (data = [] → serviceCallback data = []) ∧
    (data ≠ [] →
      serviceCallback data =
        data.map (fun p => DisplayOp.updateWidget p.1 p.2 false) ++ [DisplayOp.refreshOp] ∧
      (serviceCallback data).count DisplayOp.refreshOp = 1 ∧
      (serviceCallback data).length = data.length + 1) := by
  constructor
  · intro h
    subst h
    rfl
  · intro h
    have hne : data.isEmpty = false := by
      cases data with
      | nil => exact absurd rfl h
      | cons a as => rfl
    have hform : serviceCallback data =
        data.map (fun p => DisplayOp.updateWidget p.1 p.2 false) ++ [DisplayOp.refreshOp] := by
      simp [serviceCallback, hne, foldl_updates_eq_map]
    refine ⟨hform, ?_, ?_⟩
    · rw [hform, List.count_append]
      have hz : (data.map (fun p => DisplayOp.updateWidget p.1 p.2 false)).count
          DisplayOp.refreshOp = 0 := by
        rw [List.count_eq_zero]
        intro hmem
        obtain ⟨p, _, hp⟩ := List.mem_map.mp hmem
        exact DisplayOp.noConfusion hp
      rw [hz]
      rfl
    · rw [hform]
      simp

/-- C8 witness: the theorem applied to the empty batch and to a concrete
two-delta batch. -/
theorem C8_service_batch_witness :
    serviceCallback [] = [] ∧
    serviceCallback [("t", "v"), ("u", "w")] =
      [DisplayOp.updateWidget "t" "v" false, DisplayOp.updateWidget "u" "w" false,
       DisplayOp.refreshOp] ∧
    (serviceCallback [("t", "v"), ("u", "w")]).count DisplayOp.refreshOp = 1 := by
  have h1 := (C8_service_batch []).1 rfl
  have h2 := (C8_service_batch [("t", "v"), ("u", "w")]).2 (by decide)
  exact ⟨h1, h2.1, h2.2.1⟩

/-! ## Claim C9 -/

/-- C9 (amended): dispatching an update to a topic id that is not a key of
the widget registry raises `KeyError` (`self.widgets[id]`), rather than
being a silent no-op. -/
theorem C9_unregistered_topic_raises (d : DisplayD) (id value : String) (refresh : Bool)
    (h : lookupA d.widgets id = none) :
    d.update_widget id value refresh = .error () := by
  simp [DisplayD.update_widget, h]

/-- C9 counterexample: the claim asserts a silent no-op for an unregistered
topic; on a display with an empty registry, `update_widget` raises
(`.error`) instead. -/
theorem C9_unregistered_topic_counterexample :
    DisplayD.update_widget { widgets := [], image := mkBitmap 2 2 } "x" "v" false =
      .error () := by rfl

/-- C9 witness: the amended theorem applied at a concrete display. -/
theorem C9_unregistered_topic_witness :
    DisplayD.update_widget { widgets := [], image := mkBitmap 2 2 } "x" "v" true =
      .error () :=
  C9_unregistered_topic_raises { widgets := [], image := mkBitmap 2 2 } "x" "v" true rfl

/-! ## Claim C4 -/

/-- Numeric text widget used for the parse-error statements. -/
def numWidget : TextW :=
  { position := (0, 0), size := (1, 1), font := trivialFont, halign := .left,
    text := "", is_numeric := true, decimal := 1, suffix := "",
    image := [[true]] }

/-- C4 (amended): a non-empty, non-numeric input on a numeric widget makes
`float(value)` raise `ValueError`, which propagates out of `Text.update`
(with the widget area already cleared); only a non-numeric widget never
reaches the parse, and an empty input is substituted before parsing. -/
theorem C4_parse_error_propagates :
    (∀ (w : TextW) (v : String), w.is_numeric = true → v ≠ "" → pyFloat v = none →
      w.update v = .error { w with image := clearedImage w }) ∧
    (∀ (w : TextW) (v : String), w.is_numeric = false →
      ∃ s, w.format_text v = some s) := by
  constructor
  · intro w v hnum hv hparse
    simp [TextW.update, TextW.format_text, clearedImage, hnum, hv, hparse]
  · intro w v hnum
    simp [TextW.format_text, hnum]

/-- C4 counterexample: the claim asserts `update` never raises; delivering
the non-numeric `"abc"` to a numeric widget raises (`none` image result). -/
theorem C4_update_raises_counterexample :
    updImage (numWidget.update "abc") = none := by rfl

/-- C4 witness: the amended theorem applied at the concrete widget. -/
theorem C4_parse_error_witness :
    numWidget.update "abc" = .error { numWidget with image := clearedImage numWidget } ∧
    ∃ s, ({ numWidget with is_numeric := false } : TextW).format_text "zz" = some s :=
  ⟨C4_parse_error_propagates.1 numWidget "abc" rfl (by decide) (by rfl),
   C4_parse_error_propagates.2 { numWidget with is_numeric := false } "zz" rfl⟩

/-! ## Claim C5 -/

/-- Text widget whose font oracle reports a degenerate (zero-width) glyph
box for every string, with a set pixel retained in its bitmap. -/
def degenWidget : TextW :=
  { position := (0, 0), size := (1, 1),
    font := ⟨0, fun _ => some (0, 0, 0, 0), fun _ _ _ => []⟩,
    halign := .left, text := "t", is_numeric := false, decimal := 0, suffix := "",
    image := [[true]] }

/-- C5 (amended): when the formatted value's glyph box degenerates to zero
in either dimension, `Text.update` returns without painting, but the widget
area has already been cleared by the leading `draw.rectangle(..., fill=0)`;
the resulting bitmap is the cleared one, not the previous one. -/
theorem C5_degenerate_clears (w : TextW) (value fv : String) (a b c e : Nat)
    (hfmt : w.format_text value = some fv)
    (hbbox : w.font.maskBbox fv = some (a, b, c, e))
    (hdeg : c = 0 ∨ e + w.font.descent = 0) :
    w.update value = .ok { w with image := clearedImage w } := by
  simp only [TextW.update, clearedImage, hfmt, TextW.get_size, hbbox]
  rw [if_pos hdeg]

/-- C5 counterexample: the claim asserts the previous bitmap survives a
degenerate-box update; the previous bitmap `[[true]]` is replaced by the
cleared bitmap `[[false]]`. -/
theorem C5_degenerate_counterexample :
    updImage (degenWidget.update "x") = some [[false]] ∧
    degenWidget.image = [[true]] ∧
    updImage (degenWidget.update "x") ≠ some degenWidget.image := by
  refine ⟨rfl, rfl, ?_⟩
  have h : updImage (degenWidget.update "x") = some [[false]] := rfl
  rw [h]
  decide

/-- C5 witness: the amended theorem applied at the concrete widget. -/
theorem C5_degenerate_witness :
    degenWidget.update "y" = .ok { degenWidget with image := clearedImage degenWidget } :=
  C5_degenerate_clears degenWidget "y" "y" 0 0 0 0 rfl rfl (Or.inl rfl)

/-! ## Claim C7 -/

/-- C7 (amended): the per-topic state is initialised to the int `0` in the
older provider and to the empty string representation in the newer
subscription — neither is distinct from observable values: a first
observation is emitted exactly when it differs (by Python `==`,
respectively by string representation) from that initial value. -/
theorem C7_sentinel_is_zero :
    (∀ (ts : List String) (t : String), t ∈ ts →
      lookupA (initDataPy ts) t = some (JValue.intNum 0)) ∧
    (∀ (t : String) (resp v : JValue), extractPath resp (splitSlash t) = some v →
      evalResponsePy (initProviderPy [t]) resp =
        some (if pyEq (JValue.intNum 0) v then ([], initProviderPy [t])
              else ([(t, v)], { initProviderPy [t] with data := [(t, v)] }))) ∧
    (∀ (t : String) (cb : Bool), (SignalKSubscription.init t cb).value = "") ∧
    (∀ (t : String) (d v : JValue), extractPath d (splitSlash t) = some v →
      (SignalKSubscription.init t true).update d =
        (if pyStr v = "" then some (SignalKSubscription.init t true, none)
         else some ({ SignalKSubscription.init t true with value := pyStr v },
                    some (t, pyStr v)))) := by
  refine ⟨fun ts t ht => lookupA_initDataPy ts t ht, ?_, fun t cb => rfl, ?_⟩
  · intro t resp v hext
    simp only [evalResponsePy, initProviderPy, initDataPy, List.map, evalGo, hext, lookupA,
      if_pos rfl]
    cases h : pyEq (JValue.intNum 0) v with
    | true => simp [evalGo, h]
    | false => simp [evalGo, h, setA]
  · intro t d v hext
    simp only [SignalKSubscription.update, SignalKSubscription.init, hext]
    by_cases hv : pyStr v = ""
    · simp [hv]
    · simp [hv, Ne.symm hv]

/-- C7 counterexample: the claim says the sentinel is distinct from every
observable value so the first observation (including `0`) is always
emitted; the older provider initialises the state to the int `0`, and a
first observation of `0` produces no delta at all. -/
theorem C7_first_zero_not_emitted :
    initDataPy ["a"] = [("a", JValue.intNum 0)] ∧
    evalResponsePy (initProviderPy ["a"]) (.obj [("a", JValue.intNum 0)]) =
      some ([], initProviderPy ["a"]) :=
  ⟨rfl, rfl⟩

/-- C7 witness: the amended theorem applied at concrete first
observations. -/
theorem C7_sentinel_witness :
    lookupA (initDataPy ["a", "b"]) "b" = some (JValue.intNum 0) ∧
    evalResponsePy (initProviderPy ["a"]) (.obj [("a", JValue.str "hello")]) =
      some (if pyEq (JValue.intNum 0) (JValue.str "hello") then ([], initProviderPy ["a"])
            else ([("a", JValue.str "hello")],
                  { initProviderPy ["a"] with data := [("a", JValue.str "hello")] })) ∧
    (SignalKSubscription.init "a" true).update (.obj [("a", JValue.intNum 7)]) =
      (if pyStr (JValue.intNum 7) = ""
       then some (SignalKSubscription.init "a" true, none)
       else some ({ SignalKSubscription.init "a" true with value := pyStr (JValue.intNum 7) },
                  some ("a", pyStr (JValue.intNum 7)))) :=
  ⟨C7_sentinel_is_zero.1 ["a", "b"] "b" (by decide),
   C7_sentinel_is_zero.2.1 "a" (.obj [("a", JValue.str "hello")]) (JValue.str "hello") rfl,
   C7_sentinel_is_zero.2.2.2 "a" (.obj [("a", JValue.intNum 7)]) (JValue.intNum 7) rfl⟩

/-! ## Claim C2 -/

/-- C2 (amended): in the newer provider's run loop, a `RequestException`
from the fetch and the `HTTPError` raised by `raise_for_status()` for
statuses 400–599 are caught and give a no-op cycle; but a response body
that fails JSON parsing raises `json.JSONDecodeError`, which is not a
`RequestException`, and propagates out of the loop — and the older
provider's run loop catches nothing at all. -/
theorem C2_error_absorption :
    (∀ subs : List SignalKSubscription,
      runCycleSK subs .requestError = .ok (subs, [])) ∧
    (∀ (subs : List SignalKSubscription) (status : Nat) (parsed : Option JValue),
      400 ≤ status → status < 600 →
      runCycleSK subs (.response status parsed) = .ok (subs, [])) ∧
    (∀ (subs : List SignalKSubscription) (status : Nat),
      ¬(400 ≤ status ∧ status < 600) →
      runCycleSK subs (.response status none) = .error ()) ∧
    (∀ st : SKProviderPy, runCyclePy st .requestError = .error ()) := by
  refine ⟨fun subs => rfl, ?_, ?_, fun st => rfl⟩
  · intro subs status parsed h1 h2
    simp [runCycleSK, h1, h2]
  · intro subs status h
    simp [runCycleSK, h]

/-- C2 counterexample: the claim says a malformed JSON body is absorbed as a
no-op cycle; a 200 response with an unparsable body makes the run-loop
iteration raise (`.error`) instead. -/
theorem C2_malformed_json_counterexample :
    runCycleSK [SignalKSubscription.init "a" true] (.response 200 none) = .error () := by
  rfl

/-- C2 witness: the amended theorem applied at concrete cycles. -/
theorem C2_error_absorption_witness :
    runCycleSK [SignalKSubscription.init "a" true] .requestError =
      .ok ([SignalKSubscription.init "a" true], []) ∧
    runCycleSK [] (.response 500 (some (.obj []))) = .ok ([], []) ∧
    runCycleSK [] (.response 204 none) = .error () ∧
    runCyclePy (initProviderPy ["a"]) .requestError = .error () :=
  ⟨C2_error_absorption.1 _,
   C2_error_absorption.2.1 [] 500 (some (.obj [])) (by decide) (by decide),
   C2_error_absorption.2.2.1 [] 204 (by decide),
   C2_error_absorption.2.2.2 _⟩

/-! ## Claim C1 -/

/-- A subscription update whose extracted representation equals the stored
one leaves the state unchanged and emits nothing. -/
theorem subscription_update_unchanged (s : SignalKSubscription) (d : JValue)
    (jv : JValue) (hext : extractPath d s.path = some jv)
    (hrep : pyStr jv = s.value) :
    s.update d = some (s, none) := by
  simp [SignalKSubscription.update, hext, hrep]

/-- Over a run of documents whose extracted representation stays equal to
the stored one, the subscription emits nothing and keeps its state. -/
theorem runUpdates_unchanged (s : SignalKSubscription) (docs : List JValue)
    (r : String) (hval : s.value = r)
    (hdocs : ∀ d ∈ docs, ∃ jv, extractPath d s.path = some jv ∧ pyStr jv = r) :
    runUpdates s docs = some (s, 0) := by
  induction docs with
  | nil => rfl
  | cons d ds ih =>
    obtain ⟨jv, hext, hrep⟩ := hdocs d (List.mem_cons_self _ _)
    have h1 : s.update d = some (s, none) :=
      subscription_update_unchanged s d jv hext (by rw [hrep, hval])
    have h2 : runUpdates s ds = some (s, 0) :=
      ih (fun d' hd' => hdocs d' (List.mem_cons_of_mem _ hd'))
    simp [runUpdates, h1, h2]

/-- A subscription update whose extracted representation differs from the
stored one stores the new representation and emits exactly when a callback
is registered. -/
theorem subscription_update_changed (s : SignalKSubscription) (d : JValue)
    (jv : JValue) (hext : extractPath d s.path = some jv)
    (hrep : pyStr jv ≠ s.value) :
    s.update d = some ({ s with value := pyStr jv },
      if s.hasCallback then some (s.topic, pyStr jv) else none) := by
  cases hcb : s.hasCallback with
  | true => simp [SignalKSubscription.update, hext, hcb, Ne.symm hrep]
  | false => simp [SignalKSubscription.update, hext, hcb, Ne.symm hrep]

/-- C1 (amended): in the newer provider, an emitted delta implies the
extracted string representation differs from the stored one (and carries
the topic and the new representation); over consecutive cycles with an
unchanged extracted representation the callback fires at most once; the
older provider instead gates emission on raw Python value inequality
against its stored value. -/
theorem C1_change_only_emission :
    (∀ (s : SignalKSubscription) (d : JValue) (s' : SignalKSubscription) (t v : String),
      s.update d = some (s', some (t, v)) →
      ∃ jv, extractPath d s.path = some jv ∧ pyStr jv ≠ s.value ∧
        t = s.topic ∧ v = pyStr jv ∧ s'.value = pyStr jv) ∧
    (∀ (s : SignalKSubscription) (docs : List JValue) (r : String)
        (s'' : SignalKSubscription) (n : Nat),
      (∀ d ∈ docs, ∃ jv, extractPath d s.path = some jv ∧ pyStr jv = r) →
      runUpdates s docs = some (s'', n) → n ≤ 1) ∧
    (∀ (t : String) (old resp v : JValue),
      extractPath resp (splitSlash t) = some v →
      evalResponsePy { topics := [t], data := [(t, old)], hasCallback := true } resp =
        some (if pyEq old v
              then ([], { topics := [t], data := [(t, old)], hasCallback := true })
              else ([(t, v)], { topics := [t], data := [(t, v)], hasCallback := true }))) := by
  refine ⟨?_, ?_, ?_⟩
  · intro s d s' t v h
    cases hext : extractPath d s.path with
    | none => simp [SignalKSubscription.update, hext] at h
    | some jv =>
      by_cases hrep : pyStr jv = s.value
      · rw [subscription_update_unchanged s d jv hext hrep] at h
        simp at h
      · rw [subscription_update_changed s d jv hext hrep] at h
        cases hcb : s.hasCallback with
        | false => rw [hcb] at h; simp at h
        | true =>
          rw [hcb] at h
          simp only [if_true, Option.some.injEq, Prod.mk.injEq] at h
          obtain ⟨hs', ht, hv⟩ := h
          exact ⟨jv, rfl, hrep, ht.symm, hv.symm, by rw [← hs']⟩
  · intro s docs r s'' n hdocs hrun
    cases docs with
    | nil =>
      simp [runUpdates] at hrun
      omega
    | cons d ds =>
      obtain ⟨jv, hext, hrep⟩ := hdocs d (List.mem_cons_self _ _)
      by_cases heq : s.value = r
      · have h1 : s.update d = some (s, none) :=
          subscription_update_unchanged s d jv hext (by rw [hrep, heq])
        have h2 : runUpdates s ds = some (s, 0) :=
          runUpdates_unchanged s ds r heq
            (fun d' hd' => hdocs d' (List.mem_cons_of_mem _ hd'))
        simp [runUpdates, h1, h2] at hrun
        omega
      · have hne : pyStr jv ≠ s.value := by rw [hrep]; exact fun hh => heq hh.symm
        have h1 := subscription_update_changed s d jv hext hne
        have hval' : ({ s with value := pyStr jv } : SignalKSubscription).value = r := by
          simp [hrep]
        have h2 : runUpdates { s with value := pyStr jv } ds =
            some ({ s with value := pyStr jv }, 0) :=
          runUpdates_unchanged _ ds r hval'
            (fun d' hd' => hdocs d' (List.mem_cons_of_mem _ hd'))
        cases hcb : s.hasCallback with
        | true =>
          rw [hcb] at h1 h2
          simp [runUpdates, h1, h2] at hrun
          omega
        | false =>
          rw [hcb] at h1 h2
          simp [runUpdates, h1, h2] at hrun
          omega
  · intro t old resp v hext
    simp only [evalResponsePy, evalGo, hext, lookupA, if_pos rfl]
    cases h : pyEq old v with
    | true => simp [evalGo, h]
    | false => simp [evalGo, h, setA]

/-- C1 counterexample: the older provider compares raw values, not string
representations.  After a first cycle observing the int `0` (stored, not
emitted), a second cycle observing the string `"0"` — whose `str()`
representation is unchanged — still emits a delta to the callback. -/
theorem C1_equal_repr_emission_counterexample :
    pyStr (JValue.intNum 0) = pyStr (JValue.str "0") ∧
    runCyclePy (initProviderPy ["a"])
        (.response 200 (some (.obj [("a", JValue.intNum 0)]))) =
      .ok (initProviderPy ["a"], some []) ∧
    runCyclePy (initProviderPy ["a"])
        (.response 200 (some (.obj [("a", JValue.str "0")]))) =
      .ok ({ initProviderPy ["a"] with data := [("a", JValue.str "0")] },
           some [("a", JValue.str "0")]) :=
  ⟨rfl, rfl, rfl⟩

/-- C1 witness: the amended theorem applied at a concrete subscription, a
concrete two-cycle constant run, and a concrete raw-value cycle. -/
theorem C1_change_only_emission_witness :
    (∃ jv, extractPath (.obj [("a", JValue.intNum 5)])
        (SignalKSubscription.init "a" true).path = some jv ∧
      pyStr jv ≠ (SignalKSubscription.init "a" true).value ∧
      "a" = (SignalKSubscription.init "a" true).topic ∧ "5" = pyStr jv ∧
      ({ SignalKSubscription.init "a" true with value := "5" }
        : SignalKSubscription).value = pyStr jv) ∧
    (1 : Nat) ≤ 1 ∧
    evalResponsePy { topics := ["a"], data := [("a", JValue.intNum 0)], hasCallback := true }
        (.obj [("a", JValue.str "0")]) =
      some (if pyEq (JValue.intNum 0) (JValue.str "0")
            then ([], { topics := ["a"], data := [("a", JValue.intNum 0)],
                        hasCallback := true })
            else ([("a", JValue.str "0")],
                  { topics := ["a"], data := [("a", JValue.str "0")],
                    hasCallback := true })) := by
  refine ⟨?_, ?_, ?_⟩
  · exact C1_change_only_emission.1 (SignalKSubscription.init "a" true)
      (.obj [("a", JValue.intNum 5)])
      { SignalKSubscription.init "a" true with value := "5" } "a" "5" rfl
  · exact C1_change_only_emission.2.1 (SignalKSubscription.init "a" true)
      [.obj [("a", JValue.intNum 5)], .obj [("a", JValue.intNum 5)]] "5"
      { SignalKSubscription.init "a" true with value := "5" } 1
      (by
        intro d hd
        have hh : d = .obj [("a", JValue.intNum 5)] := by
          rcases List.mem_cons.mp hd with h | h
          · exact h
          · rcases List.mem_cons.mp h with h' | h'
            · exact h'
            · cases h'
        subst hh
        exact ⟨JValue.intNum 5, rfl, rfl⟩)
      rfl
  · exact C1_change_only_emission.2.2 "a" (JValue.intNum 0)
      (.obj [("a", JValue.str "0")]) (JValue.str "0") rfl

/-! ## Claim C10 -/

/-- Canonical form of a text-widget update on a well-dimensioned bitmap:
the result depends only on the widget's configuration and the incoming
value, never on the pixels previously stored in its bitmap. -/
theorem updImage_via (t : TextW) (img : Bitmap) (v : String)
    (h : dimsOk img t.size.1 t.size.2) :
    updImage (TextW.update { t with image := img } v) =
      (match t.format_text v with
       | none => none
       | some fv =>
         match t.get_size fv with
         | none => none
         | some (bw, bh) =>
           if bw = 0 ∨ bh = 0 then some (mkBitmap t.size.1 t.size.2)
           else some (pasteBitmap (mkBitmap t.size.1 t.size.2)
             (t.font.renderOn fv bw bh) (t.align_text bw) 0)) := by
  have hclear : fillRect img 0 0 (t.size.1 : Int) (t.size.2 : Int) false =
      mkBitmap t.size.1 t.size.2 := fillRect_clear img _ _ h
  simp only [TextW.update]
  simp only [show TextW.format_text { t with image := img } v = t.format_text v from rfl,
    show ∀ fv, TextW.get_size { t with image := img } fv = t.get_size fv from fun _ => rfl,
    show ∀ bw, TextW.align_text { t with image := img } bw = t.align_text bw from
      fun _ => rfl,
    show ({ t with image := img } : TextW).font = t.font from rfl,
    show ({ t with image := img } : TextW).size = t.size from rfl,
    show ({ t with image := img } : TextW).image = img from rfl]
  simp only [hclear]
  cases hf : t.format_text v with
  | none => simp [updImage]
  | some fv =>
    cases hs : t.get_size fv with
    | none => simp [hs, updImage]
    | some wh =>
      obtain ⟨bw, bh⟩ := wh
      by_cases hdeg : bw = 0 ∨ bh = 0
      · simp [hs, hdeg, updImage]
      · simp [hs, hdeg, updImage]

/-- C10 (amended): `update_all_widgets` on an empty registry is a no-op
with no repaint; on a non-empty registry it issues exactly one full repaint
followed by sleep; and each topic is updated with the empty default value,
so a text widget recomputes its bitmap from its configured fallback —
independently of the previously rendered pixels. -/
theorem C10_update_all_widgets :
    (∀ d : DisplayD, d.widgets = [] → d.update_all_widgets = .ok (d, [])) ∧
    (∀ (d d' : DisplayD) (ops : List BackendOp),
      d.update_all_widgets = .ok (d', ops) → d.widgets ≠ [] →
      ops = [BackendOp.paintFull, BackendOp.sleepOp]) ∧
    (∀ (t : TextW) (img1 img2 : Bitmap) (v : String),
      dimsOk img1 t.size.1 t.size.2 → dimsOk img2 t.size.1 t.size.2 →
      updImage (TextW.update { t with image := img1 } v) =
        updImage (TextW.update { t with image := img2 } v)) := by
  refine ⟨?_, ?_, ?_⟩
  · intro d h
    simp [DisplayD.update_all_widgets, h]
  · intro d d' ops h hne
    cases hd : d.widgets with
    | nil => exact absurd hd hne
    | cons kv rest =>
      rw [DisplayD.update_all_widgets, hd] at h
      cases hloop : updateAllLoop d (List.map (fun kv => kv.1) (kv :: rest)) with
      | error e =>
        rw [hloop] at h
        simp at h
      | ok d'' =>
        rw [hloop] at h
        simp only [List.isEmpty_cons, Bool.false_eq_true, if_false,
          Except.ok.injEq, Prod.mk.injEq] at h
        exact h.2.symm
  · intro t img1 img2 v h1 h2
    rw [updImage_via t img1 v h1, updImage_via t img2 v h2]

/-- Font oracle whose glyph box width is the string length and whose canvas
render is an all-set block. -/
def font10 : FontO :=
  ⟨0, fun s => some (0, 0, s.length, 1),
   fun _ bw bh => List.replicate bh (List.replicate bw true)⟩

/-- A numeric text widget (fallback `"0"`) whose bitmap currently shows the
previously rendered value `"42"` (both pixels set). -/
def t10 : TextW :=
  { position := (0, 0), size := (2, 1), font := font10, halign := .left,
    text := "", is_numeric := true, decimal := 0, suffix := "",
    image := [[true, true]] }

/-- Display holding `t10` under topic `"T"`, its master buffer showing the
widget's previous contribution. -/
def d10 : DisplayD := { widgets := [("T", [WidgetV.text t10])], image := [[true, true]] }

/-- C10 counterexample: the claim says `update_all_widgets` composites each
widget's previously rendered bitmap; in fact the widget re-renders from the
empty default value (fallback `"0"`), so the master buffer changes from the
retained `[[true, true]]` to `[[true, false]]`. -/
theorem C10_retained_state_counterexample :
    dispImage d10.update_all_widgets = some [[true, false]] ∧
    d10.image = [[true, true]] ∧
    dispImage d10.update_all_widgets ≠ some d10.image := by
  refine ⟨rfl, rfl, ?_⟩
  have h : dispImage d10.update_all_widgets = some [[true, false]] := rfl
  rw [h]
  decide

/-- C10 witness: the amended theorem applied at an empty display, at `d10`,
and at `t10` with two different retained bitmaps. -/
theorem C10_update_all_widgets_witness :
    DisplayD.update_all_widgets { widgets := [], image := [[true]] } =
      .ok ({ widgets := [], image := [[true]] }, []) ∧
    ([BackendOp.paintFull, BackendOp.sleepOp] = [BackendOp.paintFull, BackendOp.sleepOp]) ∧
    updImage (TextW.update { t10 with image := [[true, true]] } "") =
      updImage (TextW.update { t10 with image := [[false, false]] } "") := by
  refine ⟨?_, ?_, ?_⟩
  · exact C10_update_all_widgets.1 { widgets := [], image := [[true]] } rfl
  · exact C10_update_all_widgets.2.1 d10
      { widgets := [("T", [WidgetV.text { t10 with image := [[true, false]] }])],
        image := [[true, false]] }
      [BackendOp.paintFull, BackendOp.sleepOp] rfl (by simp [d10])
  · exact C10_update_all_widgets.2.2 t10 [[true, true]] [[false, false]] ""
      (by constructor <;> simp [t10]) (by constructor <;> simp [t10])
